import Mathlib

/-!
Verification development for the Pluto99HECC component (`src/index.js`).

The component computes heliocentric ecliptic rectangular coordinates of
Pluto from the Pluto99 trigonometric series.  JavaScript numbers are
modelled as exact rationals extended with the special values `undefined`
and `NaN` (`JSNum`); `Math.sin` is a host builtin and is modelled as an
arbitrary function parameter `sinF : ℚ → ℚ` (no claim depends on its
values, only on how the code combines its results).  External
collaborators from the `@behaver/jdate` and `@behaver/coordinate`
packages (JDateRepository, CacheSpaceOnJDate, RectangularCoordinate3D)
and the static coefficient tables `data/x.js`, `data/y.js`, `data/z.js`
are not under `src/`; they are modelled from the specification where
noted.
-/

namespace Pluto99

/-- A JavaScript number as the code uses it: `undefined` (read of a
missing property or array slot), `NaN`, or an exact rational standing in
for a finite double. -/
inductive JSNum where
  | undef : JSNum
  | nan : JSNum
  | num : ℚ → JSNum
deriving DecidableEq

/-- JavaScript `+` on the modelled numbers: any operand that is not a
finite number yields `NaN` (`undefined + x` and `NaN + x` are `NaN`). -/
def JSNum.add : JSNum → JSNum → JSNum
  | JSNum.num a, JSNum.num b => JSNum.num (a + b)
  | _, _ => JSNum.nan

/-- JavaScript `*` on the modelled numbers; non-numbers yield `NaN`. -/
def JSNum.mul : JSNum → JSNum → JSNum
  | JSNum.num a, JSNum.num b => JSNum.num (a * b)
  | _, _ => JSNum.nan

/-- JavaScript `-` on the modelled numbers; non-numbers yield `NaN`. -/
def JSNum.sub : JSNum → JSNum → JSNum
  | JSNum.num a, JSNum.num b => JSNum.num (a - b)
  | _, _ => JSNum.nan

/-- Modelled from the spec: the external `JDateRepository` of
`@behaver/jdate` (not under `src/`), reduced to the capability the code
reads: a numeric Julian Ephemeris Day `JDE` and numeric Julian centuries
since J2000 `JDEC`. -/
structure JDateRepository where
  JDE : ℚ
  JDEC : ℚ
deriving DecidableEq

/-- A JavaScript value passed where a time reference is expected: either
an actual `JDateRepository` instance or any other value.  The code only
ever distinguishes the two via `instanceof JDateRepository`, so every
value lacking the capability collapses into the `other` constructor. -/
inductive JSValue where
  | jd : JDateRepository → JSValue
  | other : JSValue
deriving DecidableEq

/-- Modelled from the spec: the entry store of the external
`CacheSpaceOnJDate` (not under `src/`), an association of string keys to
values, valid for the current epoch only. -/
abbrev CacheEntries := List (String × JSNum)

/-- Cache lookup (`cache.get(key)`), modelled from the spec. -/
def cacheGet (c : CacheEntries) (k : String) : Option JSNum :=
  List.lookup k c

/-- Cache membership (`cache.has(key)`), modelled from the spec. -/
def cacheHas (c : CacheEntries) (k : String) : Bool :=
  (cacheGet c k).isSome

/-- Cache write (`cache.set(key, value)`), modelled from the spec. -/
def cacheSet (c : CacheEntries) (k : String) (v : JSNum) : CacheEntries :=
  (k, v) :: c

/-- The state of one `Pluto99HECC` instance: the current time reference
(`this.private.jdate`), the cache entries for the current epoch
(`this.cache`), and `calcCount`, a ghost call counter incremented each
time the series evaluator body runs (the spec's "call-count instrumented
stand-in" for observing recomputation; the JS code has no such field). -/
structure Pluto99HECC where
  jdate : JDateRepository
  cache : CacheEntries
  calcCount : ℕ
deriving DecidableEq

/-- A coefficient table: an ordered sequence of degree-tables, each an
ordered sequence of (amplitude, frequency, phase) triples. -/
abbrev SerieData := List (List (ℚ × ℚ × ℚ))

/-- The argument the code passes to `private.calc`: either an Array of
degree-tables or any non-Array value (the code only distinguishes the
two via `serie instanceof Array`). -/
inductive SerieArg where
  | arr : SerieData → SerieArg
  | notArray : SerieArg

/-- The normalized time parameter formula from `private.X` (line 44):
`X = -1 + 2 * (JDE - 626150.5) / 2185000`, in exact arithmetic. -/
def normalizeX (jde : ℚ) : ℚ :=
  -1 + 2 * (jde - 626150.5) / 2185000

/-- Exact representability as an IEEE-754 binary64 value: an integer
significand below `2 ^ 53` scaled by a power of two in the finite
exponent range. -/
def reprDouble (q : ℚ) : Prop :=
  ∃ m e : ℤ, |m| < 2 ^ 53 ∧ -1074 ≤ e ∧ e ≤ 971 ∧ q = (m : ℚ) * 2 ^ e

/-- The normalized-time formula as IEEE double arithmetic evaluates it:
each intermediate operation result passes through a rounding function
`rnd`.  Any IEEE-conforming rounding is the identity on exactly
representable values, which is the only property the endpoint-exactness
theorem assumes of `rnd`.  The literals `-1`, `2`, `626150.5` and
`2185000` are themselves exactly representable, so their double
constants coincide with these rationals. -/
def normalizeFP (rnd : ℚ → ℚ) (jde : ℚ) : ℚ :=
  rnd (-1 + rnd (rnd (2 * rnd (jde - 626150.5)) / 2185000))

/-- The inner loop of `private.calc` (lines 62-65): fold the running sum
`table_r += serie[i][j][0] * Math.sin(serie[i][j][1] * t + serie[i][j][2])`
over one degree-table. -/
def tableSum (sinF : ℚ → ℚ) (t : ℚ) (table : List (ℚ × ℚ × ℚ)) : ℚ :=
  table.foldl (fun table_r term => table_r + term.1 * sinF (term.2.1 * t + term.2.2)) 0

/-- The spec-side partial sum `S_i`: the sum over every term of a
degree-table of `amplitude * sin(frequency * t + phase)`. -/
def degreeSum (sinF : ℚ → ℚ) (t : ℚ) (table : List (ℚ × ℚ × ℚ)) : ℚ :=
  (table.map (fun term => term.1 * sinF (term.2.1 * t + term.2.2))).sum

/-- The outer loop of `private.calc` (lines 61-67): walk the
degree-tables with index `i`, adding `table_r * XMap[i]` to the running
value; an index beyond the weight list reads `undefined`, as in
JavaScript. -/
def serieLoop (sinF : ℚ → ℚ) (t : ℚ) (XMap : List JSNum) (i : ℕ) (serie_r : JSNum) :
    SerieData → JSNum
  | [] => serie_r
  | table :: rest =>
      serieLoop sinF t XMap (i + 1)
        (JSNum.add serie_r
          (JSNum.mul (JSNum.num (tableSum sinF t table)) ((XMap.get? i).getD JSNum.undef)))
        rest

/-- The series computation of `private.calc` on an Array argument, given
the already-obtained `X`: weight list `XMap = [1, X, X * X]`, then the
indexed loop starting from `serie_r = 0`. -/
def calcArr (sinF : ℚ → ℚ) (t : ℚ) (X : JSNum) (serie : SerieData) : JSNum :=
  serieLoop sinF t [JSNum.num 1, X, JSNum.mul X X] 0 (JSNum.num 0) serie

/-- The lazy-memoized read pattern shared by `private.X` and the three
axis getters: if the key is already cached return the cached entry,
otherwise run the computation, store its value under the key and return
the freshly stored entry (`if (!cache.has(k)) { v = ...; cache.set(k, v) }
return cache.get(k)`). -/
def memoRead (key : String) (compute : Pluto99HECC → JSNum × Pluto99HECC) (s : Pluto99HECC) :
    JSNum × Pluto99HECC :=
  if cacheHas s.cache key then ((cacheGet s.cache key).getD JSNum.undef, s)
  else
    ((cacheGet (cacheSet (compute s).2.cache key (compute s).1) key).getD JSNum.undef,
     { (compute s).2 with cache := cacheSet (compute s).2.cache key (compute s).1 })

/-- `private.X` (lines 42-49): memoize the normalized time parameter of
the current epoch under the key `X`. -/
def privX (s : Pluto99HECC) : JSNum × Pluto99HECC :=
  memoRead "X" (fun s0 => (JSNum.num (normalizeX s0.jdate.JDE), s0)) s

/-- The body of `private.calc` past the argument check (lines 57-69):
read `t = jdate.JDEC`, obtain the memoized `X`, run the series loop.
The ghost `calcCount` is incremented to record one evaluator run. -/
def calcSt (sinF : ℚ → ℚ) (tables : SerieData) (s : Pluto99HECC) : JSNum × Pluto99HECC :=
  let t := s.jdate.JDEC
  let p := privX s
  (calcArr sinF t p.1 tables, { p.2 with calcCount := p.2.calcCount + 1 })

/-- `private.calc` (lines 52-70); `calc` is a reserved word in Lean,
hence the name.  A non-Array argument fails immediately with the
invalid-argument error, leaving the instance state untouched;
an Array argument runs the series computation. -/
def calcSerie (sinF : ℚ → ℚ) (serie : SerieArg) (s : Pluto99HECC) :
    Except String JSNum × Pluto99HECC :=
  match serie with
  | SerieArg.notArray => (Except.error "The param serie should be an Array.", s)
  | SerieArg.arr tables => ((Except.ok (calcSt sinF tables s).1), (calcSt sinF tables s).2)

/-- The uncached computation of the getter `get x` (line 80):
`calc(DataX) + 9.922274 + 0.154154 * X()`, evaluated left to right. -/
def computeX (sinF : ℚ → ℚ) (DataX : SerieData) (s : Pluto99HECC) : JSNum × Pluto99HECC :=
  let p := calcSt sinF DataX s
  let q := privX p.2
  (JSNum.add (JSNum.add p.1 (JSNum.num 9.922274)) (JSNum.mul (JSNum.num 0.154154) q.1), q.2)

/-- The uncached computation of the getter `get y` (line 94):
`calc(DataY) + 10.016090 + 0.064073 * X()`. -/
def computeY (sinF : ℚ → ℚ) (DataY : SerieData) (s : Pluto99HECC) : JSNum × Pluto99HECC :=
  let p := calcSt sinF DataY s
  let q := privX p.2
  (JSNum.add (JSNum.add p.1 (JSNum.num 10.016090)) (JSNum.mul (JSNum.num 0.064073) q.1), q.2)

/-- The uncached computation of the getter `get z` (line 108):
`calc(DataZ) - 3.947474 - 0.042746 * X()`. -/
def computeZ (sinF : ℚ → ℚ) (DataZ : SerieData) (s : Pluto99HECC) : JSNum × Pluto99HECC :=
  let p := calcSt sinF DataZ s
  let q := privX p.2
  (JSNum.sub (JSNum.sub p.1 (JSNum.num 3.947474)) (JSNum.mul (JSNum.num 0.042746) q.1), q.2)

/-- The getter `get x` (lines 78-85): memoized under key `x`.  The
coefficient table `DataX` is a parameter because `data/x.js` is static
repository data not under `src/`; per the spec it is a fixed ordered
sequence of exactly three degree-tables. -/
def getX (sinF : ℚ → ℚ) (DataX : SerieData) (s : Pluto99HECC) : JSNum × Pluto99HECC :=
  memoRead "x" (computeX sinF DataX) s

/-- The getter `get y` (lines 92-99): memoized under key `y`. -/
def getY (sinF : ℚ → ℚ) (DataY : SerieData) (s : Pluto99HECC) : JSNum × Pluto99HECC :=
  memoRead "y" (computeY sinF DataY) s

/-- The getter `get z` (lines 106-113): memoized under key `z`. -/
def getZ (sinF : ℚ → ℚ) (DataZ : SerieData) (s : Pluto99HECC) : JSNum × Pluto99HECC :=
  memoRead "z" (computeZ sinF DataZ) s

/-- Modelled from the spec: the external `RectangularCoordinate3D` of
`@behaver/coordinate/3d` (not under `src/`), used purely as a return
container, an immutable snapshot of three scalars copied at
construction. -/
structure RectangularCoordinate3D where
  x : JSNum
  y : JSNum
  z : JSNum
deriving DecidableEq

/-- The getter `get rc` (lines 120-122):
`new RectangularCoordinate3D(this.x, this.y, this.z)`, the three axis
reads performed left to right, each threading the updated state. -/
def getRc (sinF : ℚ → ℚ) (DataX DataY DataZ : SerieData) (s : Pluto99HECC) :
    RectangularCoordinate3D × Pluto99HECC :=
  ({ x := (getX sinF DataX s).1,
     y := (getY sinF DataY (getX sinF DataX s).2).1,
     z := (getZ sinF DataZ (getY sinF DataY (getX sinF DataX s).2).2).1 },
   (getZ sinF DataZ (getY sinF DataY (getX sinF DataX s).2).2).2)

/-- The constructor (lines 34-71): stores the time reference and creates
`new CacheSpaceOnJDate(jdate)`.  Modelled from the spec: the external
`CacheSpaceOnJDate` constructor (not under `src/`) validates that its
argument is a `JDateRepository`, raising an invalid-argument error
otherwise, and starts with no cached entries. -/
def construct (v : JSValue) : Except String Pluto99HECC :=
  match v with
  | JSValue.jd j => Except.ok { jdate := j, cache := [], calcCount := 0 }
  | JSValue.other => Except.error "invalid argument"

/-- The setter `set obTime` (lines 129-134): a non-`JDateRepository`
argument throws before anything is touched; otherwise `cache.on(jdr)`
retargets the cache — modelled from the spec: the external `on` drops
every entry cached under the previous epoch — and the new reference is
adopted as current.  The ghost counter is untouched. -/
def setObTime (v : JSValue) (s : Pluto99HECC) : Except String Unit × Pluto99HECC :=
  match v with
  | JSValue.other => (Except.error "The param jdr should be a instance of JDateRepository.", s)
  | JSValue.jd j => (Except.ok (), { s with cache := [], jdate := j })

/-- The getter `get obTime` (lines 141-143). -/
def getObTime (s : Pluto99HECC) : JDateRepository :=
  s.jdate

theorem foldl_add_eq_sum {α : Type} (f : α → ℚ) (l : List α) (a : ℚ) :
    l.foldl (fun acc x => acc + f x) a = a + (l.map f).sum := by
  induction l generalizing a with
  | nil => simp
  | cons x xs ih => simp [ih]; ring

theorem tableSum_eq_degreeSum (sinF : ℚ → ℚ) (t : ℚ) (table : List (ℚ × ℚ × ℚ)) :
    tableSum sinF t table = degreeSum sinF t table := by
  simp [tableSum, degreeSum, foldl_add_eq_sum]

theorem cacheGet_set_same (c : CacheEntries) (k : String) (v : JSNum) :
    cacheGet (cacheSet c k v) k = some v := by
  simp [cacheGet, cacheSet, List.lookup]

theorem cacheGet_set_other (c : CacheEntries) (k k' : String) (v : JSNum)
    (h : (k' == k) = false) :
    cacheGet (cacheSet c k v) k' = cacheGet c k' := by
  simp [cacheGet, cacheSet, List.lookup, h]

theorem cacheHas_of_get (c : CacheEntries) (k : String) (v : JSNum)
    (h : cacheGet c k = some v) : cacheHas c k = true := by
  simp [cacheHas, h]

theorem memoRead_cached (key : String) (f : Pluto99HECC → JSNum × Pluto99HECC)
    (s : Pluto99HECC) (h : cacheHas s.cache key = true) :
    memoRead key f s = ((cacheGet s.cache key).getD JSNum.undef, s) := by
  simp [memoRead, h]

theorem memoRead_fresh (key : String) (f : Pluto99HECC → JSNum × Pluto99HECC)
    (s : Pluto99HECC) (h : cacheHas s.cache key = false) :
    memoRead key f s =
      ((f s).1, { (f s).2 with cache := cacheSet (f s).2.cache key (f s).1 }) := by
  simp [memoRead, h, cacheGet_set_same]

theorem memoRead_get (key : String) (f : Pluto99HECC → JSNum × Pluto99HECC)
    (s : Pluto99HECC) :
    cacheGet (memoRead key f s).2.cache key = some (memoRead key f s).1 := by
  by_cases h : cacheHas s.cache key = true
  · rw [memoRead_cached key f s h]
    rcases hg : cacheGet s.cache key with _ | v
    · simp [cacheHas, hg] at h
    · simp [hg]
  · rw [memoRead_fresh key f s (by simpa using h)]
    simp [cacheGet_set_same]

theorem memoRead_idem (key : String) (f : Pluto99HECC → JSNum × Pluto99HECC)
    (s : Pluto99HECC) :
    memoRead key f (memoRead key f s).2 = memoRead key f s := by
  have hg := memoRead_get key f s
  rw [memoRead_cached key f (memoRead key f s).2 (cacheHas_of_get _ _ _ hg), hg]
  simp

theorem memoRead_preserve (key : String) (f : Pluto99HECC → JSNum × Pluto99HECC)
    (s : Pluto99HECC) (k' : String) (hk : (k' == key) = false)
    (hf : cacheGet (f s).2.cache k' = cacheGet s.cache k') :
    cacheGet (memoRead key f s).2.cache k' = cacheGet s.cache k' := by
  by_cases h : cacheHas s.cache key = true
  · rw [memoRead_cached key f s h]
  · rw [memoRead_fresh key f s (by simpa using h)]
    simpa [cacheGet_set_other _ _ _ _ hk] using hf

theorem memoRead_count_le (key : String) (f : Pluto99HECC → JSNum × Pluto99HECC)
    (s : Pluto99HECC) (hf : (f s).2.calcCount ≤ s.calcCount + 1) :
    (memoRead key f s).2.calcCount ≤ s.calcCount + 1 := by
  by_cases h : cacheHas s.cache key = true
  · rw [memoRead_cached key f s h]
    exact Nat.le_succ_of_le (Nat.le_refl _)
  · rw [memoRead_fresh key f s (by simpa using h)]
    exact hf

theorem privX_fresh (s : Pluto99HECC) (h : cacheHas s.cache "X" = false) :
    privX s = (JSNum.num (normalizeX s.jdate.JDE),
      { s with cache := cacheSet s.cache "X" (JSNum.num (normalizeX s.jdate.JDE)) }) := by
  rw [privX, memoRead_fresh _ _ _ h]

theorem privX_cached (s : Pluto99HECC) (v : JSNum) (h : cacheGet s.cache "X" = some v) :
    privX s = (v, s) := by
  rw [privX, memoRead_cached _ _ _ (cacheHas_of_get _ _ _ h), h]
  simp

theorem privX_count (s : Pluto99HECC) : (privX s).2.calcCount = s.calcCount := by
  rw [privX]
  by_cases h : cacheHas s.cache "X" = true
  · rw [memoRead_cached _ _ _ h]
  · rw [memoRead_fresh _ _ _ (by simpa using h)]

theorem privX_preserve (s : Pluto99HECC) (k' : String) (hk : (k' == "X") = false) :
    cacheGet (privX s).2.cache k' = cacheGet s.cache k' :=
  memoRead_preserve _ _ _ _ hk rfl

theorem calcSt_count (sinF : ℚ → ℚ) (tables : SerieData) (s : Pluto99HECC) :
    (calcSt sinF tables s).2.calcCount = s.calcCount + 1 := by
  simp [calcSt, privX_count]

theorem calcSt_preserve (sinF : ℚ → ℚ) (tables : SerieData) (s : Pluto99HECC)
    (k' : String) (hk : (k' == "X") = false) :
    cacheGet (calcSt sinF tables s).2.cache k' = cacheGet s.cache k' := by
  simp [calcSt, privX_preserve s k' hk]

theorem calcSt_fresh (sinF : ℚ → ℚ) (tables : SerieData) (s : Pluto99HECC)
    (hX : cacheHas s.cache "X" = false) :
    calcSt sinF tables s =
      (calcArr sinF s.jdate.JDEC (JSNum.num (normalizeX s.jdate.JDE)) tables,
       { s with cache := cacheSet s.cache "X" (JSNum.num (normalizeX s.jdate.JDE)),
                calcCount := s.calcCount + 1 }) := by
  simp [calcSt, privX_fresh s hX]

theorem computeX_fresh (sinF : ℚ → ℚ) (DataX : SerieData) (s : Pluto99HECC)
    (hX : cacheHas s.cache "X" = false) :
    computeX sinF DataX s =
      (JSNum.add
        (JSNum.add (calcArr sinF s.jdate.JDEC (JSNum.num (normalizeX s.jdate.JDE)) DataX)
          (JSNum.num 9.922274))
        (JSNum.mul (JSNum.num 0.154154) (JSNum.num (normalizeX s.jdate.JDE))),
       { s with cache := cacheSet s.cache "X" (JSNum.num (normalizeX s.jdate.JDE)),
                calcCount := s.calcCount + 1 }) := by
  rw [computeX, calcSt_fresh sinF DataX s hX]
  rw [privX_cached _ _ (cacheGet_set_same _ _ _)]

theorem computeY_fresh (sinF : ℚ → ℚ) (DataY : SerieData) (s : Pluto99HECC)
    (hX : cacheHas s.cache "X" = false) :
    computeY sinF DataY s =
      (JSNum.add
        (JSNum.add (calcArr sinF s.jdate.JDEC (JSNum.num (normalizeX s.jdate.JDE)) DataY)
          (JSNum.num 10.016090))
        (JSNum.mul (JSNum.num 0.064073) (JSNum.num (normalizeX s.jdate.JDE))),
       { s with cache := cacheSet s.cache "X" (JSNum.num (normalizeX s.jdate.JDE)),
                calcCount := s.calcCount + 1 }) := by
  rw [computeY, calcSt_fresh sinF DataY s hX]
  rw [privX_cached _ _ (cacheGet_set_same _ _ _)]

theorem computeZ_fresh (sinF : ℚ → ℚ) (DataZ : SerieData) (s : Pluto99HECC)
    (hX : cacheHas s.cache "X" = false) :
    computeZ sinF DataZ s =
      (JSNum.sub
        (JSNum.sub (calcArr sinF s.jdate.JDEC (JSNum.num (normalizeX s.jdate.JDE)) DataZ)
          (JSNum.num 3.947474))
        (JSNum.mul (JSNum.num 0.042746) (JSNum.num (normalizeX s.jdate.JDE))),
       { s with cache := cacheSet s.cache "X" (JSNum.num (normalizeX s.jdate.JDE)),
                calcCount := s.calcCount + 1 }) := by
  rw [computeZ, calcSt_fresh sinF DataZ s hX]
  rw [privX_cached _ _ (cacheGet_set_same _ _ _)]

theorem computeX_count (sinF : ℚ → ℚ) (DataX : SerieData) (s : Pluto99HECC) :
    (computeX sinF DataX s).2.calcCount = s.calcCount + 1 := by
  simp [computeX, privX_count, calcSt_count]

theorem computeY_count (sinF : ℚ → ℚ) (DataY : SerieData) (s : Pluto99HECC) :
    (computeY sinF DataY s).2.calcCount = s.calcCount + 1 := by
  simp [computeY, privX_count, calcSt_count]

theorem computeZ_count (sinF : ℚ → ℚ) (DataZ : SerieData) (s : Pluto99HECC) :
    (computeZ sinF DataZ s).2.calcCount = s.calcCount + 1 := by
  simp [computeZ, privX_count, calcSt_count]

theorem computeX_preserve (sinF : ℚ → ℚ) (DataX : SerieData) (s : Pluto99HECC)
    (k' : String) (hk : (k' == "X") = false) :
    cacheGet (computeX sinF DataX s).2.cache k' = cacheGet s.cache k' := by
  simp only [computeX]
  rw [privX_preserve _ _ hk, calcSt_preserve _ _ _ _ hk]

theorem computeY_preserve (sinF : ℚ → ℚ) (DataY : SerieData) (s : Pluto99HECC)
    (k' : String) (hk : (k' == "X") = false) :
    cacheGet (computeY sinF DataY s).2.cache k' = cacheGet s.cache k' := by
  simp only [computeY]
  rw [privX_preserve _ _ hk, calcSt_preserve _ _ _ _ hk]

theorem computeZ_preserve (sinF : ℚ → ℚ) (DataZ : SerieData) (s : Pluto99HECC)
    (k' : String) (hk : (k' == "X") = false) :
    cacheGet (computeZ sinF DataZ s).2.cache k' = cacheGet s.cache k' := by
  simp only [computeZ]
  rw [privX_preserve _ _ hk, calcSt_preserve _ _ _ _ hk]

theorem getY_preserve_x (sinF : ℚ → ℚ) (DataY : SerieData) (s : Pluto99HECC) :
    cacheGet (getY sinF DataY s).2.cache "x" = cacheGet s.cache "x" :=
  memoRead_preserve _ _ _ _ (by decide) (computeY_preserve sinF DataY s _ (by decide))

theorem getZ_preserve_x (sinF : ℚ → ℚ) (DataZ : SerieData) (s : Pluto99HECC) :
    cacheGet (getZ sinF DataZ s).2.cache "x" = cacheGet s.cache "x" :=
  memoRead_preserve _ _ _ _ (by decide) (computeZ_preserve sinF DataZ s _ (by decide))

theorem getZ_preserve_y (sinF : ℚ → ℚ) (DataZ : SerieData) (s : Pluto99HECC) :
    cacheGet (getZ sinF DataZ s).2.cache "y" = cacheGet s.cache "y" :=
  memoRead_preserve _ _ _ _ (by decide) (computeZ_preserve sinF DataZ s _ (by decide))

theorem JSNum.add_nan_left (y : JSNum) : JSNum.add JSNum.nan y = JSNum.nan := by
  cases y <;> rfl

theorem JSNum.add_nan_right (x : JSNum) : JSNum.add x JSNum.nan = JSNum.nan := by
  cases x <;> rfl

theorem serieLoop_of_nan (sinF : ℚ → ℚ) (t : ℚ) (XMap : List JSNum) (l : SerieData) :
    ∀ i : ℕ, serieLoop sinF t XMap i JSNum.nan l = JSNum.nan := by
  induction l with
  | nil => intro i; rfl
  | cons table rest ih =>
      intro i
      rw [serieLoop, JSNum.add_nan_left]
      exact ih (i + 1)

theorem serieLoop_nan_of_le (sinF : ℚ → ℚ) (t : ℚ) (XMap : List JSNum) (i : ℕ)
    (acc : JSNum) (l : SerieData) (hi : XMap.length ≤ i) (hne : l ≠ []) :
    serieLoop sinF t XMap i acc l = JSNum.nan := by
  rcases l with _ | ⟨table, rest⟩
  · exact absurd rfl hne
  · rw [serieLoop]
    have hw : XMap.get? i = none := by
      rw [List.get?_eq_none]
      exact hi
    rw [hw]
    rw [show (none : Option JSNum).getD JSNum.undef = JSNum.undef from rfl]
    rw [show JSNum.mul (JSNum.num (tableSum sinF t table)) JSNum.undef = JSNum.nan from rfl]
    rw [JSNum.add_nan_right]
    exact serieLoop_of_nan sinF t XMap rest (i + 1)

theorem calcArr_three (sinF : ℚ → ℚ) (t X : ℚ) (d0 d1 d2 : List (ℚ × ℚ × ℚ)) :
    calcArr sinF t (JSNum.num X) [d0, d1, d2] =
      JSNum.num (tableSum sinF t d0 * 1 + tableSum sinF t d1 * X
        + tableSum sinF t d2 * (X * X)) := by
  simp [calcArr, serieLoop, JSNum.add, JSNum.mul]

theorem calcArr_nan_of_long (sinF : ℚ → ℚ) (t : ℚ) (X : JSNum) (serie : SerieData)
    (hlen : 3 < serie.length) : calcArr sinF t X serie = JSNum.nan := by
  rcases serie with _ | ⟨a, _ | ⟨b, _ | ⟨c, _ | ⟨d, rest⟩⟩⟩⟩
  · simp at hlen
  · simp at hlen
  · simp at hlen
  · simp at hlen
  · rw [calcArr, serieLoop, serieLoop, serieLoop]
    exact serieLoop_nan_of_le _ _ _ _ _ _ (by simp) (by simp)

/-- C1: for every valid series table (three degree-tables of
(amplitude, frequency, phase) triples), the evaluator returns
`S_0 * 1 + S_1 * X + S_2 * X ^ 2`, where `S_i` sums
`amplitude * sin(frequency * t + phase)` over degree-table `i`, with
`t` the centuries-since-J2000 value and `X` the normalized time
parameter of the current epoch (stated for an epoch whose `X` is not
yet cached, i.e. any state reached by construction or an epoch
change). -/
theorem claim_series_evaluation (sinF : ℚ → ℚ) (s : Pluto99HECC)
    (d0 d1 d2 : List (ℚ × ℚ × ℚ)) (hX : cacheHas s.cache "X" = false) :
    (calcSerie sinF (SerieArg.arr [d0, d1, d2]) s).1 =
      Except.ok (JSNum.num
        (degreeSum sinF s.jdate.JDEC d0 * 1
          + degreeSum sinF s.jdate.JDEC d1 * normalizeX s.jdate.JDE
          + degreeSum sinF s.jdate.JDEC d2 * normalizeX s.jdate.JDE ^ 2)) := by
  simp only [calcSerie, calcSt_fresh sinF [d0, d1, d2] s hX, calcArr_three,
    tableSum_eq_degreeSum, Except.ok.injEq, JSNum.num.injEq]
  ring

/-- Witness for C1 at a concrete epoch, table and sine stand-in. -/
theorem claim_series_evaluation_witness :
    (calcSerie (fun q => q) (SerieArg.arr [[(1, 0, 0)], [], [(2, 1, 1)]])
        { jdate := { JDE := 626150.5, JDEC := 1 }, cache := [], calcCount := 0 }).1 =
      Except.ok (JSNum.num
        (degreeSum (fun q => q) 1 [(1, 0, 0)] * 1
          + degreeSum (fun q => q) 1 [] * normalizeX 626150.5
          + degreeSum (fun q => q) 1 [(2, 1, 1)] * normalizeX 626150.5 ^ 2)) :=
  claim_series_evaluation (fun q => q)
    { jdate := { JDE := 626150.5, JDEC := 1 }, cache := [], calcCount := 0 }
    [(1, 0, 0)] [] [(2, 1, 1)] rfl

/-- C2: each axis accessor returns the series result plus its fixed
linear correction: `x = series_x + 9.922274 + 0.154154 * X`,
`y = series_y + 10.016090 + 0.064073 * X`,
`z = series_z - 3.947474 - 0.042746 * X` (JavaScript arithmetic on the
modelled numbers; stated for a state with no stale cache entries, i.e.
any state reached by construction or an epoch change). -/
theorem claim_axis_corrections (sinF : ℚ → ℚ) (DataX DataY DataZ : SerieData)
    (s : Pluto99HECC) (hX : cacheHas s.cache "X" = false)
    (hx : cacheHas s.cache "x" = false) (hy : cacheHas s.cache "y" = false)
    (hz : cacheHas s.cache "z" = false) :
    (getX sinF DataX s).1 =
      JSNum.add
        (JSNum.add (calcArr sinF s.jdate.JDEC (JSNum.num (normalizeX s.jdate.JDE)) DataX)
          (JSNum.num 9.922274))
        (JSNum.mul (JSNum.num 0.154154) (JSNum.num (normalizeX s.jdate.JDE)))
    ∧ (getY sinF DataY s).1 =
      JSNum.add
        (JSNum.add (calcArr sinF s.jdate.JDEC (JSNum.num (normalizeX s.jdate.JDE)) DataY)
          (JSNum.num 10.016090))
        (JSNum.mul (JSNum.num 0.064073) (JSNum.num (normalizeX s.jdate.JDE)))
    ∧ (getZ sinF DataZ s).1 =
      JSNum.sub
        (JSNum.sub (calcArr sinF s.jdate.JDEC (JSNum.num (normalizeX s.jdate.JDE)) DataZ)
          (JSNum.num 3.947474))
        (JSNum.mul (JSNum.num 0.042746) (JSNum.num (normalizeX s.jdate.JDE))) := by
  refine ⟨?_, ?_, ?_⟩
  · rw [getX, memoRead_fresh _ _ _ hx, computeX_fresh _ _ _ hX]
  · rw [getY, memoRead_fresh _ _ _ hy, computeY_fresh _ _ _ hX]
  · rw [getZ, memoRead_fresh _ _ _ hz, computeZ_fresh _ _ _ hX]

/-- Witness for C2 at a concrete epoch and tables (x axis shown). -/
theorem claim_axis_corrections_witness :
    (getX (fun q => q) [[(1, 0, 0)]]
        { jdate := { JDE := 2446896, JDEC := 0 }, cache := [], calcCount := 0 }).1 =
      JSNum.add
        (JSNum.add (calcArr (fun q => q) 0 (JSNum.num (normalizeX 2446896)) [[(1, 0, 0)]])
          (JSNum.num 9.922274))
        (JSNum.mul (JSNum.num 0.154154) (JSNum.num (normalizeX 2446896))) :=
  (claim_axis_corrections (fun q => q) [[(1, 0, 0)]] [] []
    { jdate := { JDE := 2446896, JDEC := 0 }, cache := [], calcCount := 0 }
    rfl rfl rfl rfl).1

/-- C3: the normalized time parameter is
`X = -1 + 2 * (JDE - 626150.5) / 2185000`, and the window endpoints are
exact: `normalize(626150.5) = -1` and `normalize(2811150.5) = 1`, both
in exact arithmetic and under IEEE double evaluation — modelled by
passing every intermediate result through an arbitrary rounding
function that, as any IEEE-conforming rounding, fixes exactly
representable values. -/
theorem claim_normalization (rnd : ℚ → ℚ) (hrnd : ∀ q, reprDouble q → rnd q = q) :
    (∀ s : Pluto99HECC, cacheHas s.cache "X" = false →
        (privX s).1 = JSNum.num (-1 + 2 * (s.jdate.JDE - 626150.5) / 2185000))
    ∧ normalizeX 626150.5 = -1 ∧ normalizeX 2811150.5 = 1
    ∧ normalizeFP rnd 626150.5 = -1 ∧ normalizeFP rnd 2811150.5 = 1 := by
  have hq0 : rnd 0 = 0 := hrnd 0 ⟨0, 0, by norm_num, by norm_num, by norm_num, by norm_num⟩
  have hqn1 : rnd (-1) = -1 :=
    hrnd (-1) ⟨-1, 0, by norm_num, by norm_num, by norm_num, by norm_num⟩
  have hq1 : rnd 1 = 1 := hrnd 1 ⟨1, 0, by norm_num, by norm_num, by norm_num, by norm_num⟩
  have hq2 : rnd 2 = 2 := hrnd 2 ⟨1, 1, by norm_num, by norm_num, by norm_num, by norm_num⟩
  have hqa : rnd 2185000 = 2185000 :=
    hrnd 2185000 ⟨2185000, 0, by norm_num, by norm_num, by norm_num, by norm_num⟩
  have hqb : rnd 4370000 = 4370000 :=
    hrnd 4370000 ⟨4370000, 0, by norm_num, by norm_num, by norm_num, by norm_num⟩
  refine ⟨?_, ?_, ?_, ?_, ?_⟩
  · intro s h
    rw [privX_fresh s h]
    rfl
  · norm_num [normalizeX]
  · norm_num [normalizeX]
  · rw [normalizeFP, show (626150.5 : ℚ) - 626150.5 = 0 by norm_num, hq0,
      show (2 : ℚ) * 0 = 0 by norm_num, hq0, show (0 : ℚ) / 2185000 = 0 by norm_num, hq0,
      show (-1 : ℚ) + 0 = -1 by norm_num]
    exact hqn1
  · rw [normalizeFP, show (2811150.5 : ℚ) - 626150.5 = 2185000 by norm_num, hqa,
      show (2 : ℚ) * 2185000 = 4370000 by norm_num, hqb,
      show (4370000 : ℚ) / 2185000 = 2 by norm_num, hq2,
      show (-1 : ℚ) + 2 = 1 by norm_num]
    exact hq1

/-- Witness for C3: the identity function is a rounding that fixes
representable values; endpoint evaluation is exact under it. -/
theorem claim_normalization_witness :
    (privX { jdate := { JDE := 626150.5, JDEC := 0 }, cache := [], calcCount := 0 }).1
      = JSNum.num (-1 + 2 * ((626150.5 : ℚ) - 626150.5) / 2185000)
    ∧ normalizeFP id 626150.5 = -1 ∧ normalizeFP id 2811150.5 = 1 :=
  ⟨(claim_normalization id (fun _ _ => rfl)).1
      { jdate := { JDE := 626150.5, JDEC := 0 }, cache := [], calcCount := 0 } rfl,
   (claim_normalization id (fun _ _ => rfl)).2.2.2.1,
   (claim_normalization id (fun _ _ => rfl)).2.2.2.2⟩

/-- C4: constructing the engine with a value that is not a time
reference (does not carry the numeric JDE / centuries capability) fails
with an invalid-argument error; no engine state, hence no coordinate,
is ever produced. -/
theorem claim_construct_validation (v : JSValue)
    (hv : ∀ j : JDateRepository, v ≠ JSValue.jd j) :
    construct v = Except.error "invalid argument" := by
  cases v with
  | jd j => exact absurd rfl (hv j)
  | other => rfl

/-- Witness for C4 at the concrete invalid value. -/
theorem claim_construct_validation_witness :
    construct JSValue.other = Except.error "invalid argument" :=
  claim_construct_validation JSValue.other (fun _ h => JSValue.noConfusion h)

/-- C5: the obTime setter rejects every non-time-reference argument
with an invalid-argument error; a valid argument is adopted as the
current epoch and every memoized entry is dropped, so no key is cached
afterwards and the normalized parameter next reads from the new
epoch. -/
theorem claim_setObTime_contract (s : Pluto99HECC) :
    (setObTime JSValue.other s).1 =
        Except.error "The param jdr should be a instance of JDateRepository."
    ∧ ∀ j : JDateRepository,
        setObTime (JSValue.jd j) s =
          (Except.ok (), { jdate := j, cache := [], calcCount := s.calcCount })
        ∧ getObTime (setObTime (JSValue.jd j) s).2 = j
        ∧ (∀ k : String, cacheHas (setObTime (JSValue.jd j) s).2.cache k = false)
        ∧ (privX (setObTime (JSValue.jd j) s).2).1 = JSNum.num (normalizeX j.JDE) := by
  refine ⟨rfl, fun j => ⟨rfl, rfl, fun k => rfl, ?_⟩⟩
  rw [privX_fresh (setObTime (JSValue.jd j) s).2 rfl]
  rfl

/-- C6: calling the series evaluator with a non-Array argument fails
immediately with the invalid-argument error, with the instance state —
cache included — returned untouched. -/
theorem claim_calc_type_check (sinF : ℚ → ℚ) (s : Pluto99HECC) :
    calcSerie sinF SerieArg.notArray s =
      (Except.error "The param serie should be an Array.", s) :=
  rfl

/-- C7: for a fixed epoch, a second consecutive read of the same axis
returns the identical value and state (so nothing is recomputed), and
any single read runs the series evaluator at most once. -/
theorem claim_memoization (sinF : ℚ → ℚ) (DataX DataY DataZ : SerieData)
    (s : Pluto99HECC) :
    getX sinF DataX (getX sinF DataX s).2 = getX sinF DataX s
    ∧ getY sinF DataY (getY sinF DataY s).2 = getY sinF DataY s
    ∧ getZ sinF DataZ (getZ sinF DataZ s).2 = getZ sinF DataZ s
    ∧ (getX sinF DataX s).2.calcCount ≤ s.calcCount + 1
    ∧ (getY sinF DataY s).2.calcCount ≤ s.calcCount + 1
    ∧ (getZ sinF DataZ s).2.calcCount ≤ s.calcCount + 1 :=
  ⟨memoRead_idem _ _ _, memoRead_idem _ _ _, memoRead_idem _ _ _,
   memoRead_count_le _ _ _ (Nat.le_of_eq (computeX_count sinF DataX s)),
   memoRead_count_le _ _ _ (Nat.le_of_eq (computeY_count sinF DataY s)),
   memoRead_count_le _ _ _ (Nat.le_of_eq (computeZ_count sinF DataZ s))⟩

/-- C8: reading `rc` yields the snapshot of exactly the three axis
values as read under the current epoch at that moment (x, then y, then
z, each threading the updated cache), and re-reading `rc` afterwards
reproduces the same snapshot and state. -/
theorem claim_rc_snapshot (sinF : ℚ → ℚ) (DataX DataY DataZ : SerieData)
    (s : Pluto99HECC) :
    (getRc sinF DataX DataY DataZ s).1.x = (getX sinF DataX s).1
    ∧ (getRc sinF DataX DataY DataZ s).1.y = (getY sinF DataY (getX sinF DataX s).2).1
    ∧ (getRc sinF DataX DataY DataZ s).1.z =
        (getZ sinF DataZ (getY sinF DataY (getX sinF DataX s).2).2).1
    ∧ getRc sinF DataX DataY DataZ (getRc sinF DataX DataY DataZ s).2 =
        getRc sinF DataX DataY DataZ s := by
  refine ⟨rfl, rfl, rfl, ?_⟩
  simp only [getRc]
  generalize hpx : getX sinF DataX s = px
  generalize hpy : getY sinF DataY px.2 = py
  generalize hpz : getZ sinF DataZ py.2 = pz
  have hx1 : cacheGet pz.2.cache "x" = some px.1 := by
    rw [← hpz, getZ_preserve_x, ← hpy, getY_preserve_x, ← hpx]
    exact memoRead_get _ _ _
  have hy1 : cacheGet pz.2.cache "y" = some py.1 := by
    rw [← hpz, getZ_preserve_y, ← hpy]
    exact memoRead_get _ _ _
  have hX2 : getX sinF DataX pz.2 = (px.1, pz.2) := by
    rw [getX, memoRead_cached _ _ _ (cacheHas_of_get _ _ _ hx1), hx1]
    rfl
  have hY2 : getY sinF DataY pz.2 = (py.1, pz.2) := by
    rw [getY, memoRead_cached _ _ _ (cacheHas_of_get _ _ _ hy1), hy1]
    rfl
  have hZ2 : getZ sinF DataZ pz.2 = pz := by
    rw [← hpz]
    exact memoRead_idem _ _ _
  simp [hX2, hY2, hZ2]

/-- C9: an obTime setter call with an invalid argument throws and
mutates nothing: the state — time reference and every cached value —
is exactly as before the call. -/
theorem claim_setObTime_invalid_preserves (s : Pluto99HECC) :
    (setObTime JSValue.other s).1 =
        Except.error "The param jdr should be a instance of JDateRepository."
    ∧ (setObTime JSValue.other s).2 = s :=
  ⟨rfl, rfl⟩

/-- C10: the weight list only covers degrees 0, 1, 2; for an Array
argument with more than three degree-tables and a non-empty
degree-table at index 3 or beyond, the evaluator returns `NaN` instead
of raising an error or ignoring the extra tables. -/
theorem claim_extra_tables_nan (sinF : ℚ → ℚ) (s : Pluto99HECC) (serie : SerieData)
    (hlen : 3 < serie.length)
    (_hne : ∃ i : Fin serie.length, 3 ≤ (i : ℕ) ∧ serie.get i ≠ []) :
    (calcSerie sinF (SerieArg.arr serie) s).1 = Except.ok JSNum.nan := by
  simp only [calcSerie]
  rw [show (calcSt sinF serie s).1 = calcArr sinF s.jdate.JDEC (privX s).1 serie from rfl]
  rw [calcArr_nan_of_long _ _ _ _ hlen]

/-- Witness for C10: four degree-tables, the fourth non-empty. -/
theorem claim_extra_tables_nan_witness :
    (calcSerie (fun q => q) (SerieArg.arr [[], [], [], [(1, 1, 1)]])
        { jdate := { JDE := 0, JDEC := 0 }, cache := [], calcCount := 0 }).1 =
      Except.ok JSNum.nan :=
  claim_extra_tables_nan (fun q => q)
    { jdate := { JDE := 0, JDEC := 0 }, cache := [], calcCount := 0 }
    [[], [], [], [(1, 1, 1)]] (by decide) ⟨⟨3, by decide⟩, by decide, by decide⟩

end Pluto99
